import Mathlib

/-!
Shallow embedding of the GDAS-to-ERA5 GRIB remapping engine from
`ai-models-modal/gfs.py`.

A pygrib message is modelled as a `Record` carrying the three metadata
attributes the remapper reads (`shortName`, `typeOfLevel`, `level`) plus a
numeric grid payload, modelled as a list of rationals (the numpy elementwise
arithmetic of the transforms becomes `List.map`).

Python exceptions are modelled with `Except`:
  - `select_grb_from_list` raises `ValueError` with message
    "Could not match GRIB message with ..." on zero matches and
    "Multiple matches for ..." on several matches; both messages embed the
    matcher dict and nothing else, so the errors are modelled as the two
    constructors of `SelectError`, each carrying exactly the matcher set.
  - `mappers_by_type_of_level[grb.typeOfLevel]` raises `KeyError` for a level
    type absent from the table; modelled as `ProcError.keyError`.

The in-place mutation of the template messages inside `process_gdas_grib`
(`grb.values = ...`, `grb.shortName = ...`) is modelled by explicit state
passing: `storeAfter` computes the final state of the loaded template record
list, while `processSlots` is the `Except` value of the loop itself.

pygrib's own `open(...).select(...)` (used to pre-filter the template
messages and to pre-subset the source pool by short name) belongs to the
external collaborator library; per the spec's external-interface boundary it
is modelled as plain filtering of the loaded record sequence.
-/

/-- Metadata keys of a GRIB message that the remapper reads (`grb[k]`). -/
inductive AttrKey where
  | shortName
  | typeOfLevel
  | level
deriving DecidableEq, Repr

/-- A metadata value: pygrib returns strings for names and integers for levels. -/
inductive AttrVal where
  | str (s : String)
  | int (n : Int)
deriving DecidableEq, Repr

/-- One GRIB message: identifying metadata plus the numeric grid payload. -/
structure Record where
  shortName : String
  typeOfLevel : String
  level : Int
  values : List ℚ
deriving DecidableEq, Repr

/-- Attribute access `grb[k]` for the three modelled keys. -/
def Record.getAttr (grb : Record) : AttrKey → AttrVal
  | .shortName => .str grb.shortName
  | .typeOfLevel => .str grb.typeOfLevel
  | .level => .int grb.level

/-- A matcher set: the keyword arguments passed to the selector. -/
abbrev Matchers := List (AttrKey × AttrVal)

/-- Predicate `grb_matches`: true iff the message matches all the key-value attributes. -/
def grb_matches (grb : Record) (matchers : Matchers) : Bool :=
  matchers.all (fun kv => grb.getAttr kv.1 == kv.2)

/-- The two failure modes of `select_grb_from_list`; each Python `ValueError`
message embeds exactly the matcher set (and not, e.g., the match count). -/
inductive SelectError where
  | noMatch (matchers : Matchers)
  | multipleMatches (matchers : Matchers)
deriving DecidableEq, Repr

deriving instance DecidableEq for Except

/-- Selector `select_grb_from_list`: keep the messages matching all matchers; fail on
zero matches, fail on more than one, return the unique match otherwise. -/
def select_grb_from_list (grbs : List Record) (matchers : Matchers) :
    Except SelectError Record :=
  match grbs.filter (fun grb => grb_matches grb matchers) with
  | [] => .error (.noMatch matchers)
  | [g] => .ok g
  | _ :: _ :: _ => .error (.multipleMatches matchers)

/-- Identity pass-through function (`identity` in the source). -/
def identity (x : List ℚ) : List ℚ := x

/-- Density of water (kg m^-3). -/
def RHO_WATER : ℚ := 1000

/-- The `grib_mapper` namedtuple: source field name, target field name, a
numeric transform, and the partial matcher override dictionary (which in the
source only ever holds the keys `typeOfLevel` and `level`). -/
structure grib_mapper where
  source_field : String
  target_field : String
  fn : List ℚ → List ℚ
  override_typeOfLevel : Option String
  override_level : Option Int

/-- The `"isobaricInhPa"` sub-table of `mappers_by_type_of_level`. -/
def mappers_isobaricInhPa : List (String × grib_mapper) :=
  [("z", ⟨"gh", "z", fun x => x.map (fun q => q * 9.81), none, none⟩)]

/-- The `"surface"` sub-table of `mappers_by_type_of_level`. -/
def mappers_surface : List (String × grib_mapper) :=
  [ ("z", ⟨"orog", "z", fun x => x.map (fun q => q * 9.81), none, none⟩),
    ("lsm", ⟨"lsm", "lsm", identity, none, none⟩),
    ("tp", ⟨"prate", "tp", fun x => x.map (fun q => (q / RHO_WATER) * 3600 * 1),
            none, none⟩),
    ("msl", ⟨"prmsl", "msl", identity, some "meanSea", none⟩),
    ("10u", ⟨"10u", "10u", identity, some "heightAboveGround", some 10⟩),
    ("10v", ⟨"10v", "10v", identity, some "heightAboveGround", some 10⟩),
    ("100u", ⟨"100u", "100u", identity, some "heightAboveGround", some 100⟩),
    ("100v", ⟨"100v", "100v", identity, some "heightAboveGround", some 100⟩),
    ("2t", ⟨"2t", "2t", identity, some "heightAboveGround", some 2⟩),
    ("tcwv", ⟨"pwat", "tcwv", identity, some "atmosphereSingleLayer", some 0⟩) ]

/-- Table `mappers_by_type_of_level`: ERA5 field name -> mapper, keyed first by the
type of level. -/
def mappers_by_type_of_level : List (String × List (String × grib_mapper)) :=
  [("isobaricInhPa", mappers_isobaricInhPa), ("surface", mappers_surface)]

/-- Dictionary lookup `mappers_by_type_of_level[tl]` (None models `KeyError`). -/
def lookupTable (tl : String) : Option (List (String × grib_mapper)) :=
  (mappers_by_type_of_level.find? (fun p => p.1 == tl)).map Prod.snd

/-- Dictionary lookup `mappers[sn]`, guarded in the source by `sn in mappers`. -/
def lookupMapper (mappers : List (String × grib_mapper)) (sn : String) :
    Option grib_mapper :=
  (mappers.find? (fun p => p.1 == sn)).map Prod.snd

/-- The matcher set used on the mapped branch of `process_gdas_grib`:
`shortName=mapper.source_field`,
`typeOfLevel=source_matchers.get("typeOfLevel", grb.typeOfLevel)`,
`level=source_matchers.get("level", grb.level)`. -/
def mapped_matchers (mapper : grib_mapper) (grb : Record) : Matchers :=
  [ (.shortName, .str mapper.source_field),
    (.typeOfLevel, .str (mapper.override_typeOfLevel.getD grb.typeOfLevel)),
    (.level, .int (mapper.override_level.getD grb.level)) ]

/-- The matcher set used on the unmapped (identity) branch:
`shortName=grb.shortName`, `typeOfLevel=grb.typeOfLevel`, `level=grb.level`. -/
def identity_matchers (grb : Record) : Matchers :=
  [ (.shortName, .str grb.shortName),
    (.typeOfLevel, .str grb.typeOfLevel),
    (.level, .int grb.level) ]

/-- Failure modes of the body of `process_gdas_grib`'s per-slot loop. -/
inductive ProcError where
  | keyError (key : String)
  | selectError (e : SelectError)
deriving DecidableEq, Repr

/-- One iteration of the `process_gdas_grib` loop over a template message:
look the slot's type of level up in `mappers_by_type_of_level` (KeyError when
absent), then either remap through the mapper entry (select the source record
via the override matchers, transform its values, rewrite the short name) or
copy an identically-keyed source record's values. -/
def processSlot (pool : List Record) (grb : Record) : Except ProcError Record :=
  match lookupTable grb.typeOfLevel with
  | none => .error (.keyError grb.typeOfLevel)
  | some mappers =>
    match lookupMapper mappers grb.shortName with
    | some mapper =>
      match select_grb_from_list pool (mapped_matchers mapper grb) with
      | .error e => .error (.selectError e)
      | .ok source_grb =>
        .ok { grb with values := mapper.fn source_grb.values,
                       shortName := mapper.target_field }
    | none =>
      match select_grb_from_list pool (identity_matchers grb) with
      | .error e => .error (.selectError e)
      | .ok source_grb => .ok { grb with values := source_grb.values }

/-- The per-slot loop of `process_gdas_grib`: first failure aborts the whole
operation; otherwise the populated slots are returned in template order. -/
def processSlots (pool : List Record) : List Record → Except ProcError (List Record)
  | [] => .ok []
  | grb :: rest =>
    match processSlot pool grb with
    | .error e => .error e
    | .ok grb' =>
      match processSlots pool rest with
      | .error e => .error e
      | .ok out => .ok (grb' :: out)

/-- The final state of the loaded template record list: the loop mutates each
processed message in place and stops at the first failure, leaving the failing
slot and everything after it untouched. -/
def storeAfter (pool : List Record) : List Record → List Record
  | [] => []
  | grb :: rest =>
    match processSlot pool grb with
    | .error _ => grb :: rest
    | .ok grb' => grb' :: storeAfter pool rest

/-- The template messages retained after the optional
`extra_template_matchers` pre-filter (an empty dict is falsy: no filtering). -/
def retained_template (template_grbs : List Record) (extra : Matchers) :
    List Record :=
  if extra = [] then template_grbs
  else template_grbs.filter (fun grb => grb_matches grb extra)

/-- The union of source field names referenced by any mapper entry
(`m.source_field for m in mappers.values()`, over all level types). -/
def mapper_source_fields : List String :=
  (mappers_by_type_of_level.map Prod.snd).flatMap
    (fun mappers => mappers.map (fun p => p.2.source_field))

/-- Set `all_short_names`: every short name in the retained template plus every
mapper source field (the source uses a set; only membership matters). -/
def all_short_names (template_grbs : List Record) : List String :=
  template_grbs.map Record.shortName ++ mapper_source_fields

/-- Pool `source_grb_list`: the source pool pre-subset by short-name membership. -/
def indexed_pool (template_grbs source_grbs : List Record) (extra : Matchers) :
    List Record :=
  source_grbs.filter
    (fun grb => (all_short_names (retained_template template_grbs extra)).contains
      grb.shortName)

/-- Orchestrator `process_gdas_grib`: pre-filter the template, build the indexed source
pool, then run the per-slot loop. -/
def process_gdas_grib (template_grbs source_grbs : List Record)
    (extra : Matchers) : Except ProcError (List Record) :=
  processSlots (indexed_pool template_grbs source_grbs extra)
    (retained_template template_grbs extra)

/-- The matcher set the loop body would use for a slot, when its type of
level is a key of the mapping table at all (`none` models the KeyError). -/
def requiredMatchers (grb : Record) : Option Matchers :=
  match lookupTable grb.typeOfLevel with
  | none => none
  | some mappers =>
    match lookupMapper mappers grb.shortName with
    | some mapper => some (mapped_matchers mapper grb)
    | none => some (identity_matchers grb)

/-- Decidable statement that the source store contains exactly one record
matching the matcher set the code computes for this slot. -/
def slotSatisfied (source : List Record) (grb : Record) : Bool :=
  match requiredMatchers grb with
  | none => false
  | some ms => (source.filter (fun x => grb_matches x ms)).length == 1

/-! ### Helper lemmas -/

/-- A mapper entry reachable through both table lookups contributes its source
field name to `mapper_source_fields`. -/
lemma source_field_mem_of_lookup (tl : String) (mappers : List (String × grib_mapper))
    (sn : String) (m : grib_mapper)
    (htl : lookupTable tl = some mappers) (hm : lookupMapper mappers sn = some m) :
    m.source_field ∈ mapper_source_fields := by
  unfold lookupTable at htl
  unfold lookupMapper at hm
  cases hfind : mappers_by_type_of_level.find? (fun p => p.1 == tl) with
  | none => rw [hfind] at htl; cases htl
  | some p =>
    rw [hfind] at htl
    have hp2 : p.2 = mappers := by simpa using htl
    cases hfind2 : mappers.find? (fun q => q.1 == sn) with
    | none => rw [hfind2] at hm; cases hm
    | some q =>
      rw [hfind2] at hm
      have hq2 : q.2 = m := by simpa using hm
      have hpmem := List.mem_of_find?_eq_some hfind
      have hqmem := List.mem_of_find?_eq_some hfind2
      unfold mapper_source_fields
      refine List.mem_flatMap.mpr ⟨mappers, ?_, ?_⟩
      · exact hp2 ▸ List.mem_map_of_mem Prod.snd hpmem
      · exact hq2 ▸ List.mem_map_of_mem (fun r => r.2.source_field) hqmem

/-- The matcher set the loop computes always starts with a short-name pair,
whose value is either the slot's own short name or a mapper source field. -/
lemma requiredMatchers_shortName (g : Record) (ms : Matchers)
    (h : requiredMatchers g = some ms) :
    ∃ s rest, ms = (AttrKey.shortName, AttrVal.str s) :: rest ∧
      (s = g.shortName ∨ s ∈ mapper_source_fields) := by
  unfold requiredMatchers at h
  split at h
  · cases h
  · rename_i mappers htl
    split at h
    · rename_i mapper hm
      have hms : ms = mapped_matchers mapper g := by simpa using h.symm
      exact ⟨mapper.source_field, _, by rw [hms]; rfl,
        Or.inr (source_field_mem_of_lookup _ _ _ _ htl hm)⟩
    · rename_i hm
      have hms : ms = identity_matchers g := by simpa using h.symm
      exact ⟨g.shortName, _, by rw [hms]; rfl, Or.inl rfl⟩

/-- A record matching a matcher set that constrains the short name to `s`
has short name `s`. -/
lemma shortName_eq_of_matches (x : Record) (s : String) (rest : Matchers)
    (h : grb_matches x ((AttrKey.shortName, AttrVal.str s) :: rest) = true) :
    x.shortName = s := by
  unfold grb_matches at h
  rw [List.all_cons] at h
  have h1 := (Bool.and_eq_true _ _).mp h |>.1
  simpa [Record.getAttr] using h1

/-- Filtering the pool down to a short-name membership set does not change
the set of records matching a matcher set that pins the short name to a
member of that set. -/
lemma filter_names_filter_matches (source : List Record) (names : List String)
    (s : String) (rest : Matchers) (hs : s ∈ names) :
    (source.filter (fun x => names.contains x.shortName)).filter
        (fun x => grb_matches x ((AttrKey.shortName, AttrVal.str s) :: rest))
      = source.filter
          (fun x => grb_matches x ((AttrKey.shortName, AttrVal.str s) :: rest)) := by
  rw [List.filter_filter]
  apply List.filter_congr
  intro x _
  by_cases hgm : grb_matches x ((AttrKey.shortName, AttrVal.str s) :: rest) = true
  · have hsx : x.shortName = s := shortName_eq_of_matches x s rest hgm
    have : names.contains x.shortName = true := by
      rw [hsx]; exact List.elem_eq_true_of_mem hs
    rw [hgm, this]
    rfl
  · rw [Bool.not_eq_true] at hgm
    rw [hgm]
    rfl

/-- The selector's result is a function of the list of matching records. -/
lemma select_eq_of_filter_eq (pool pool' : List Record) (ms : Matchers)
    (h : pool.filter (fun x => grb_matches x ms) = pool'.filter (fun x => grb_matches x ms)) :
    select_grb_from_list pool ms = select_grb_from_list pool' ms := by
  unfold select_grb_from_list
  rw [h]

/-- Selecting with the loop's matcher set for a retained slot sees the same
matching records in the indexed pool as in the full source pool. -/
lemma select_indexed_eq_select_source (template source : List Record)
    (extra : Matchers) (g : Record) (ms : Matchers)
    (hg : g ∈ retained_template template extra)
    (hms : requiredMatchers g = some ms) :
    select_grb_from_list (indexed_pool template source extra) ms
      = select_grb_from_list source ms := by
  obtain ⟨s, rest, rfl, hsor⟩ := requiredMatchers_shortName g ms hms
  have hs : s ∈ all_short_names (retained_template template extra) := by
    unfold all_short_names
    rcases hsor with h | h
    · subst h
      exact List.mem_append_left _ (List.mem_map_of_mem Record.shortName hg)
    · exact List.mem_append_right _ h
  apply select_eq_of_filter_eq
  exact filter_names_filter_matches source _ s rest hs

/-- When the loop's matcher set is defined and the selection succeeds, the
slot is populated successfully. -/
lemma processSlot_ok_of_select_ok (pool : List Record) (g : Record) (ms : Matchers)
    (hms : requiredMatchers g = some ms) (r : Record)
    (hsel : select_grb_from_list pool ms = .ok r) :
    ∃ g', processSlot pool g = .ok g' := by
  unfold requiredMatchers at hms
  unfold processSlot
  split at hms
  · cases hms
  · rename_i mappers htl
    split at hms
    · rename_i mapper hm
      have : ms = mapped_matchers mapper g := by simpa using hms.symm
      rw [this] at hsel
      rw [hsel]
      exact ⟨_, rfl⟩
    · rename_i hm
      have : ms = identity_matchers g := by simpa using hms.symm
      rw [this] at hsel
      rw [hsel]
      exact ⟨_, rfl⟩

/-- When a slot's matcher set is defined and the selection fails, the slot
processing surfaces exactly that selection error. -/
lemma processSlot_error_of_select_error (pool : List Record) (g : Record)
    (ms : Matchers) (hms : requiredMatchers g = some ms) (e : SelectError)
    (hsel : select_grb_from_list pool ms = .error e) :
    processSlot pool g = .error (.selectError e) := by
  unfold requiredMatchers at hms
  unfold processSlot
  split at hms
  · cases hms
  · rename_i mappers htl
    split at hms
    · rename_i mapper hm
      have : ms = mapped_matchers mapper g := by simpa using hms.symm
      rw [this] at hsel
      rw [hsel]
    · rename_i hm
      have : ms = identity_matchers g := by simpa using hms.symm
      rw [this] at hsel
      rw [hsel]

/-- When every slot processes successfully, the loop returns the populated
slots in template order, one output per slot. -/
lemma processSlots_ok_of_all (pool : List Record) (l : List Record)
    (h : ∀ g ∈ l, ∃ r, processSlot pool g = .ok r) :
    ∃ out, processSlots pool l = .ok out ∧ out.length = l.length ∧
      ∀ (i : Nat) (g : Record), l[i]? = some g →
        ∃ r, out[i]? = some r ∧ processSlot pool g = .ok r := by
  induction l with
  | nil => exact ⟨[], rfl, rfl, fun i g hg => by simp at hg⟩
  | cons a t ih =>
    obtain ⟨r, hr⟩ := h a (List.mem_cons_self a t)
    obtain ⟨out, hout, hlen, hpt⟩ := ih (fun g hg => h g (List.mem_cons_of_mem a hg))
    refine ⟨r :: out, ?_, by simp [hlen], ?_⟩
    · unfold processSlots
      rw [hr, hout]
    · intro i g hg
      cases i with
      | zero =>
        simp only [List.getElem?_cons_zero] at hg
        cases hg
        exact ⟨r, by simp, hr⟩
      | succ n =>
        simp only [List.getElem?_cons_succ] at hg ⊢
        exact hpt n g hg

/-- If any slot's processing fails, the loop never returns an output list. -/
lemma processSlots_ne_ok_of_error (pool : List Record) (l : List Record)
    (h : ∃ g ∈ l, ∃ e, processSlot pool g = .error e) :
    ∀ out, processSlots pool l ≠ .ok out := by
  induction l with
  | nil => simp at h
  | cons a t ih =>
    intro out hok
    obtain ⟨g, hg, e, he⟩ := h
    unfold processSlots at hok
    cases hpa : processSlot pool a with
    | error e' => rw [hpa] at hok; cases hok
    | ok a' =>
      rw [hpa] at hok
      rcases List.mem_cons.mp hg with rfl | hgt
      · rw [hpa] at he; cases he
      · cases hrest : processSlots pool t with
        | error e' => rw [hrest] at hok; cases hok
        | ok outt => exact ih ⟨g, hgt, e, he⟩ outt hrest

/-- On success the loop's output is exactly the final mutated template state. -/
lemma storeAfter_eq_of_ok (pool : List Record) (l out : List Record)
    (h : processSlots pool l = .ok out) : storeAfter pool l = out := by
  induction l generalizing out with
  | nil =>
    unfold processSlots at h
    cases h
    rfl
  | cons a t ih =>
    unfold processSlots at h
    cases hpa : processSlot pool a with
    | error e => rw [hpa] at h; cases h
    | ok a' =>
      rw [hpa] at h
      cases hrest : processSlots pool t with
      | error e => rw [hrest] at h; cases h
      | ok outt =>
        rw [hrest] at h
        cases h
        unfold storeAfter
        rw [hpa, ih outt hrest]

/-- When every earlier slot succeeds and slot `g` fails, the loop surfaces
exactly `g`'s error. -/
lemma processSlots_error_append (pool : List Record) (pre post : List Record)
    (g : Record) (e : ProcError)
    (hpre : ∀ s ∈ pre, ∃ s', processSlot pool s = .ok s')
    (he : processSlot pool g = .error e) :
    processSlots pool (pre ++ g :: post) = .error e := by
  induction pre with
  | nil =>
    simp only [List.nil_append]
    unfold processSlots
    rw [he]
  | cons a t ih =>
    obtain ⟨a', ha⟩ := hpre a (List.mem_cons_self a t)
    have ih' := ih (fun s hs => hpre s (List.mem_cons_of_mem a hs))
    show processSlots pool (a :: (t ++ g :: post)) = .error e
    unfold processSlots
    rw [ha, ih']

/-- When every earlier slot succeeds and slot `g` fails, the final template
state is the mutated earlier slots followed by the untouched remainder. -/
lemma storeAfter_error_append (pool : List Record) (pre post : List Record)
    (g : Record) (e : ProcError)
    (hpre : ∀ s ∈ pre, ∃ s', processSlot pool s = .ok s')
    (he : processSlot pool g = .error e) :
    storeAfter pool (pre ++ g :: post) = storeAfter pool pre ++ g :: post := by
  induction pre with
  | nil =>
    simp only [List.nil_append]
    unfold storeAfter
    rw [he]
    rfl
  | cons a t ih =>
    obtain ⟨a', ha⟩ := hpre a (List.mem_cons_self a t)
    have ih' := ih (fun s hs => hpre s (List.mem_cons_of_mem a hs))
    show storeAfter pool (a :: (t ++ g :: post)) = storeAfter pool (a :: t) ++ g :: post
    unfold storeAfter
    rw [ha, ih']
    rfl

/-- When every slot of a list succeeds, the final state pairs each slot with
its successfully populated version, position by position. -/
lemma storeAfter_ok_pointwise (pool : List Record) (pre : List Record)
    (hpre : ∀ s ∈ pre, ∃ s', processSlot pool s = .ok s') :
    (storeAfter pool pre).length = pre.length ∧
      ∀ (i : Nat) (g : Record), pre[i]? = some g →
        ∃ s', (storeAfter pool pre)[i]? = some s' ∧ processSlot pool g = .ok s' := by
  induction pre with
  | nil => exact ⟨rfl, fun i g hg => by simp at hg⟩
  | cons a t ih =>
    obtain ⟨a', ha⟩ := hpre a (List.mem_cons_self a t)
    obtain ⟨hlen, hpt⟩ := ih (fun s hs => hpre s (List.mem_cons_of_mem a hs))
    have hsa : storeAfter pool (a :: t) = a' :: storeAfter pool t := by
      simp only [storeAfter, ha]
    constructor
    · rw [hsa]
      simp [hlen]
    · intro i g hg
      cases i with
      | zero =>
        rw [hsa]
        refine ⟨a', by simp, ?_⟩
        simp only [List.getElem?_cons_zero] at hg
        cases hg
        exact ha
      | succ n =>
        rw [hsa]
        simp only [List.getElem?_cons_succ] at hg ⊢
        exact hpt n g hg

/-! ### Claim theorems -/

/-- Claim C1: for every candidate pool and matcher set, the selector returns
the unique matching record when exactly one matches, errors when zero match,
errors when more than one matches (never silently returning the first), and
when any slot's selection fails, `process_gdas_grib` returns no output
sequence. -/
theorem C1_selector_strictness (pool : List Record) (ms : Matchers) :
    (∀ r, pool.filter (fun g => grb_matches g ms) = [r] →
        select_grb_from_list pool ms = .ok r)
  ∧ (pool.filter (fun g => grb_matches g ms) = [] →
        select_grb_from_list pool ms = .error (.noMatch ms))
  ∧ (2 ≤ (pool.filter (fun g => grb_matches g ms)).length →
        select_grb_from_list pool ms = .error (.multipleMatches ms))
  ∧ (∀ (template source : List Record) (extra : Matchers),
        (∃ g ∈ retained_template template extra, ∃ e,
            processSlot (indexed_pool template source extra) g = .error e) →
        ∀ out, process_gdas_grib template source extra ≠ .ok out) := by
  refine ⟨?_, ?_, ?_, ?_⟩
  · intro r hf
    unfold select_grb_from_list
    rw [hf]
  · intro hf
    unfold select_grb_from_list
    rw [hf]
  · intro h2
    unfold select_grb_from_list
    cases hf : pool.filter (fun g => grb_matches g ms) with
    | nil => rw [hf] at h2; simp at h2
    | cons a t =>
      cases t with
      | nil => rw [hf] at h2; simp at h2
      | cons b u => rfl
  · intro template source extra hex out
    unfold process_gdas_grib
    exact processSlots_ne_ok_of_error _ _ hex out

/-- Witness for C1 at concrete inputs: a unique match is returned, an empty
match set and an ambiguous match set each fail, and an assembly whose slot
selection fails returns no output. -/
theorem C1_witness :
    select_grb_from_list
        [⟨"gh", "isobaricInhPa", 500, [1]⟩, ⟨"t", "isobaricInhPa", 500, [2]⟩]
        [(.shortName, .str "gh")] = .ok ⟨"gh", "isobaricInhPa", 500, [1]⟩
  ∧ select_grb_from_list ([] : List Record) [(.shortName, .str "gh")]
      = .error (.noMatch [(.shortName, .str "gh")])
  ∧ select_grb_from_list
        [⟨"gh", "isobaricInhPa", 500, [1]⟩, ⟨"t", "isobaricInhPa", 500, [2]⟩]
        [(.typeOfLevel, .str "isobaricInhPa")]
      = .error (.multipleMatches [(.typeOfLevel, .str "isobaricInhPa")])
  ∧ process_gdas_grib [⟨"z", "isobaricInhPa", 500, [0]⟩] [] []
      ≠ .ok [⟨"z", "isobaricInhPa", 500, [0]⟩] := by
  refine ⟨?_, ?_, ?_, ?_⟩
  · exact (C1_selector_strictness
      [⟨"gh", "isobaricInhPa", 500, [1]⟩, ⟨"t", "isobaricInhPa", 500, [2]⟩]
      [(.shortName, .str "gh")]).1 ⟨"gh", "isobaricInhPa", 500, [1]⟩ (by decide)
  · exact (C1_selector_strictness [] [(.shortName, .str "gh")]).2.1 (by decide)
  · exact (C1_selector_strictness
      [⟨"gh", "isobaricInhPa", 500, [1]⟩, ⟨"t", "isobaricInhPa", 500, [2]⟩]
      [(.typeOfLevel, .str "isobaricInhPa")]).2.2.1 (by decide)
  · exact (C1_selector_strictness [] []).2.2.2
      [⟨"z", "isobaricInhPa", 500, [0]⟩] [] []
      ⟨⟨"z", "isobaricInhPa", 500, [0]⟩, by decide,
        .selectError (.noMatch
          [(.shortName, .str "gh"), (.typeOfLevel, .str "isobaricInhPa"),
            (.level, .int 500)]), by decide⟩
      [⟨"z", "isobaricInhPa", 500, [0]⟩]

/-- Claim C4: subsetting the source pool to the union of template short names
and mapper source fields never changes the selection outcome for any retained
slot's matcher set. -/
theorem C4_index_preserves_selection (template source : List Record)
    (extra : Matchers) (g : Record) (ms : Matchers)
    (hg : g ∈ retained_template template extra)
    (hms : requiredMatchers g = some ms) :
    select_grb_from_list (indexed_pool template source extra) ms
      = select_grb_from_list source ms :=
  select_indexed_eq_select_source template source extra g ms hg hms

/-- Witness for C4 at concrete inputs: the indexed pool drops an unrelated
record yet the selection outcome is unchanged. -/
theorem C4_witness :
    select_grb_from_list
        (indexed_pool [⟨"q", "isobaricInhPa", 500, [1]⟩]
          [⟨"q", "isobaricInhPa", 500, [2]⟩, ⟨"junk", "surface", 0, [3]⟩] [])
        [(.shortName, .str "q"), (.typeOfLevel, .str "isobaricInhPa"),
          (.level, .int 500)]
      = select_grb_from_list
          [⟨"q", "isobaricInhPa", 500, [2]⟩, ⟨"junk", "surface", 0, [3]⟩]
          [(.shortName, .str "q"), (.typeOfLevel, .str "isobaricInhPa"),
            (.level, .int 500)] :=
  C4_index_preserves_selection [⟨"q", "isobaricInhPa", 500, [1]⟩]
    [⟨"q", "isobaricInhPa", 500, [2]⟩, ⟨"junk", "surface", 0, [3]⟩] []
    ⟨"q", "isobaricInhPa", 500, [1]⟩
    [(.shortName, .str "q"), (.typeOfLevel, .str "isobaricInhPa"),
      (.level, .int 500)] (by decide) (by decide)

/-- Claim C9 counterexample: two source pools with two and with three records
matching the same matcher set produce identical ambiguous-match errors, so
the error does not identify the number of matching records found. -/
theorem C9_counterexample :
    (([⟨"gh", "isobaricInhPa", 500, [1]⟩, ⟨"gh", "isobaricInhPa", 850, [2]⟩] :
        List Record).filter
        (fun g => grb_matches g [(.shortName, .str "gh")])).length = 2
  ∧ (([⟨"gh", "isobaricInhPa", 500, [1]⟩, ⟨"gh", "isobaricInhPa", 850, [2]⟩,
        ⟨"gh", "isobaricInhPa", 200, [3]⟩] : List Record).filter
        (fun g => grb_matches g [(.shortName, .str "gh")])).length = 3
  ∧ select_grb_from_list
        [⟨"gh", "isobaricInhPa", 500, [1]⟩, ⟨"gh", "isobaricInhPa", 850, [2]⟩]
        [(.shortName, .str "gh")]
      = select_grb_from_list
          [⟨"gh", "isobaricInhPa", 500, [1]⟩, ⟨"gh", "isobaricInhPa", 850, [2]⟩,
            ⟨"gh", "isobaricInhPa", 200, [3]⟩]
          [(.shortName, .str "gh")] := by decide

/-- Claim C9 (amended): an ambiguous match fails with an error distinct from
the no-match error and carrying the exact matcher set, but not the number of
matching records: any two pools with two or more matches for the same matcher
set yield identical errors. -/
theorem C9_ambiguous_error_shape (pool pool' : List Record) (ms : Matchers)
    (h : 2 ≤ (pool.filter (fun g => grb_matches g ms)).length)
    (h' : 2 ≤ (pool'.filter (fun g => grb_matches g ms)).length) :
    select_grb_from_list pool ms = .error (.multipleMatches ms)
  ∧ select_grb_from_list pool' ms = select_grb_from_list pool ms
  ∧ ∀ ms₁ ms₂ : Matchers, SelectError.noMatch ms₁ ≠ SelectError.multipleMatches ms₂ := by
  have key : ∀ (l : List Record), 2 ≤ (l.filter (fun g => grb_matches g ms)).length →
      select_grb_from_list l ms = .error (.multipleMatches ms) := by
    intro l hl
    unfold select_grb_from_list
    cases hf : l.filter (fun g => grb_matches g ms) with
    | nil => rw [hf] at hl; simp at hl
    | cons a t =>
      cases t with
      | nil => rw [hf] at hl; simp at hl
      | cons b u => rfl
  exact ⟨key pool h, by rw [key pool h, key pool' h'],
    fun ms₁ ms₂ hne => by cases hne⟩

/-- Witness for C9 at concrete inputs: pools with two and three matches both
fail, with equal error values. -/
theorem C9_witness :
    select_grb_from_list
        [⟨"gh", "isobaricInhPa", 500, [1]⟩, ⟨"gh", "isobaricInhPa", 850, [2]⟩]
        [(.shortName, .str "gh")]
      = .error (.multipleMatches [(.shortName, .str "gh")])
  ∧ select_grb_from_list
        [⟨"gh", "isobaricInhPa", 500, [1]⟩, ⟨"gh", "isobaricInhPa", 850, [2]⟩,
          ⟨"gh", "isobaricInhPa", 200, [3]⟩]
        [(.shortName, .str "gh")]
      = select_grb_from_list
          [⟨"gh", "isobaricInhPa", 500, [1]⟩, ⟨"gh", "isobaricInhPa", 850, [2]⟩]
          [(.shortName, .str "gh")] := by
  have h := C9_ambiguous_error_shape
    [⟨"gh", "isobaricInhPa", 500, [1]⟩, ⟨"gh", "isobaricInhPa", 850, [2]⟩]
    [⟨"gh", "isobaricInhPa", 500, [1]⟩, ⟨"gh", "isobaricInhPa", 850, [2]⟩,
      ⟨"gh", "isobaricInhPa", 200, [3]⟩]
    [(.shortName, .str "gh")] (by decide) (by decide)
  exact ⟨h.1, h.2.1⟩

/-- Claim C2 counterexample: a template slot whose type of level is not a key
of the mapping table makes the operation fail with a KeyError even though the
source holds exactly one record with identical metadata, so the assembly does
not return a sequence of the template's length. -/
theorem C2_counterexample :
    ([⟨"prmsl", "meanSea", 0, [7]⟩] : List Record).filter
        (fun x => grb_matches x (identity_matchers ⟨"prmsl", "meanSea", 0, [5]⟩))
      = [⟨"prmsl", "meanSea", 0, [7]⟩]
  ∧ process_gdas_grib [⟨"prmsl", "meanSea", 0, [5]⟩] [⟨"prmsl", "meanSea", 0, [7]⟩] []
      = .error (.keyError "meanSea") := by decide

/-- Claim C2 (amended): when additionally every retained slot's type of level
is a key of the mapping table — so the loop's matcher set is defined — and the
source holds exactly one match for every retained slot's matcher set, the
operation succeeds with one output per retained slot, in template order. -/
theorem C2_structural_preservation (template source : List Record) (extra : Matchers)
    (H : ∀ g ∈ retained_template template extra, slotSatisfied source g = true) :
    ∃ out, process_gdas_grib template source extra = .ok out ∧
      out.length = (retained_template template extra).length ∧
      ∀ (i : Nat) (g : Record), (retained_template template extra)[i]? = some g →
        ∃ r, out[i]? = some r ∧
          processSlot (indexed_pool template source extra) g = .ok r := by
  unfold process_gdas_grib
  apply processSlots_ok_of_all
  intro g hg
  have hs := H g hg
  unfold slotSatisfied at hs
  cases hms : requiredMatchers g with
  | none => rw [hms] at hs; cases hs
  | some ms =>
    rw [hms] at hs
    have hlen : (source.filter (fun x => grb_matches x ms)).length = 1 := by
      simpa using hs
    obtain ⟨r, hr⟩ := List.length_eq_one.mp hlen
    have hsel : select_grb_from_list source ms = .ok r := by
      unfold select_grb_from_list
      rw [hr]
    have hsel' : select_grb_from_list (indexed_pool template source extra) ms
        = .ok r := by
      rw [select_indexed_eq_select_source template source extra g ms hg hms]
      exact hsel
    exact processSlot_ok_of_select_ok _ g ms hms r hsel'

/-- Witness for C2 at concrete inputs: a one-slot template is populated into
a one-element output. -/
theorem C2_witness :
    ∃ out, process_gdas_grib [⟨"lsm", "surface", 0, [1]⟩]
        [⟨"lsm", "surface", 0, [7]⟩] [] = .ok out ∧ out.length = 1 := by
  obtain ⟨out, h1, h2, _⟩ := C2_structural_preservation
    [⟨"lsm", "surface", 0, [1]⟩] [⟨"lsm", "surface", 0, [7]⟩] [] (by decide)
  exact ⟨out, h1, by simpa [retained_template] using h2⟩

/-- Claim C3 counterexample: a slot whose type of level is not a key of the
mapping table is not populated by identity mapping; the operation raises a
KeyError even though the source holds exactly one identically-keyed record. -/
theorem C3_counterexample :
    ([⟨"2t", "heightAboveGround", 2, [9]⟩] : List Record).filter
        (fun x => grb_matches x
          (identity_matchers ⟨"2t", "heightAboveGround", 2, [1]⟩))
      = [⟨"2t", "heightAboveGround", 2, [9]⟩]
  ∧ process_gdas_grib [⟨"2t", "heightAboveGround", 2, [1]⟩]
      [⟨"2t", "heightAboveGround", 2, [9]⟩] []
      = .error (.keyError "heightAboveGround") := by decide

/-- Claim C3 (amended): for a slot whose type of level is a key of the
mapping table but whose short name has no entry in that sub-table, identity
mapping applies: when the pool holds exactly one record with identical
short name, type of level and level, the slot is populated with that record's
values exactly and its short name is unchanged. -/
theorem C3_identity_mapping (pool : List Record) (g r : Record)
    (mappers : List (String × grib_mapper))
    (htl : lookupTable g.typeOfLevel = some mappers)
    (hnm : lookupMapper mappers g.shortName = none)
    (hfil : pool.filter (fun x => grb_matches x (identity_matchers g)) = [r]) :
    processSlot pool g = .ok { g with values := r.values }
  ∧ r.shortName = g.shortName ∧ r.typeOfLevel = g.typeOfLevel
  ∧ r.level = g.level := by
  have hsel : select_grb_from_list pool (identity_matchers g) = .ok r := by
    unfold select_grb_from_list
    rw [hfil]
  have hmem : r ∈ pool.filter (fun x => grb_matches x (identity_matchers g)) := by
    rw [hfil]
    exact List.mem_singleton.mpr rfl
  have hmatch : grb_matches r (identity_matchers g) = true :=
    (List.mem_filter.mp hmem).2
  have heq : r.shortName = g.shortName ∧ r.typeOfLevel = g.typeOfLevel
      ∧ r.level = g.level := by
    unfold grb_matches identity_matchers at hmatch
    simpa [Record.getAttr] using hmatch
  refine ⟨?_, heq.1, heq.2.1, heq.2.2⟩
  simp only [processSlot, htl, hnm, hsel]

/-- Witness for C3 at concrete inputs: an unmapped isobaric slot is filled by
copying the identically-keyed source record's values. -/
theorem C3_witness :
    processSlot [⟨"q", "isobaricInhPa", 500, [4]⟩] ⟨"q", "isobaricInhPa", 500, [0]⟩
      = .ok ⟨"q", "isobaricInhPa", 500, [4]⟩ :=
  (C3_identity_mapping [⟨"q", "isobaricInhPa", 500, [4]⟩]
    ⟨"q", "isobaricInhPa", 500, [0]⟩ ⟨"q", "isobaricInhPa", 500, [4]⟩
    mappers_isobaricInhPa rfl rfl (by decide)).1

/-- Claim C5: for a slot with a mapper entry, the source matchers are the
entry's source field with the entry's type-of-level and level overrides
falling back to the slot's own; concretely `msl` is searched as `prmsl`
under `meanSea` at the slot's own level, the wind and temperature fields
under `heightAboveGround` at 10, 100 and 2 metres, and `tcwv` as `pwat`
under `atmosphereSingleLayer` at level 0. -/
theorem C5_source_matcher_formula :
    (∀ (g : Record) (mappers : List (String × grib_mapper)) (m : grib_mapper),
        lookupTable g.typeOfLevel = some mappers →
        lookupMapper mappers g.shortName = some m →
        requiredMatchers g = some
          [ (.shortName, .str m.source_field),
            (.typeOfLevel, .str (m.override_typeOfLevel.getD g.typeOfLevel)),
            (.level, .int (m.override_level.getD g.level)) ])
  ∧ (∀ (lvl : Int) (v : List ℚ),
      requiredMatchers ⟨"msl", "surface", lvl, v⟩
        = some [(.shortName, .str "prmsl"), (.typeOfLevel, .str "meanSea"),
            (.level, .int lvl)]
    ∧ requiredMatchers ⟨"10u", "surface", lvl, v⟩
        = some [(.shortName, .str "10u"), (.typeOfLevel, .str "heightAboveGround"),
            (.level, .int 10)]
    ∧ requiredMatchers ⟨"10v", "surface", lvl, v⟩
        = some [(.shortName, .str "10v"), (.typeOfLevel, .str "heightAboveGround"),
            (.level, .int 10)]
    ∧ requiredMatchers ⟨"100u", "surface", lvl, v⟩
        = some [(.shortName, .str "100u"), (.typeOfLevel, .str "heightAboveGround"),
            (.level, .int 100)]
    ∧ requiredMatchers ⟨"100v", "surface", lvl, v⟩
        = some [(.shortName, .str "100v"), (.typeOfLevel, .str "heightAboveGround"),
            (.level, .int 100)]
    ∧ requiredMatchers ⟨"2t", "surface", lvl, v⟩
        = some [(.shortName, .str "2t"), (.typeOfLevel, .str "heightAboveGround"),
            (.level, .int 2)]
    ∧ requiredMatchers ⟨"tcwv", "surface", lvl, v⟩
        = some [(.shortName, .str "pwat"),
            (.typeOfLevel, .str "atmosphereSingleLayer"), (.level, .int 0)]) := by
  constructor
  · intro g mappers m htl hm
    simp only [requiredMatchers, htl, hm, mapped_matchers]
  · intro lvl v
    exact ⟨rfl, rfl, rfl, rfl, rfl, rfl, rfl⟩

/-- Witness for C5 at concrete inputs: the isobaric `z` slot is searched as
`gh` at its own level, and the surface `msl` slot as `prmsl` under `meanSea`. -/
theorem C5_witness :
    requiredMatchers ⟨"z", "isobaricInhPa", 500, []⟩
      = some [(.shortName, .str "gh"), (.typeOfLevel, .str "isobaricInhPa"),
          (.level, .int 500)]
  ∧ requiredMatchers ⟨"msl", "surface", 0, []⟩
      = some [(.shortName, .str "prmsl"), (.typeOfLevel, .str "meanSea"),
          (.level, .int 0)] := by
  constructor
  · exact C5_source_matcher_formula.1 ⟨"z", "isobaricInhPa", 500, []⟩
      mappers_isobaricInhPa
      ⟨"gh", "z", fun x => x.map (fun q => q * 9.81), none, none⟩ rfl rfl
  · exact (C5_source_matcher_formula.2 0 []).1

/-- Claim C6: an isobaric template slot named `z` is populated from the
unique source record named `gh` at the same isobaric level, with every value
multiplied by 9.81, and keeps the short name `z`. -/
theorem C6_isobaric_z_mapping (pool : List Record) (lvl : Int) (v w : List ℚ)
    (hfil : pool.filter (fun x => grb_matches x
        [(.shortName, .str "gh"), (.typeOfLevel, .str "isobaricInhPa"),
          (.level, .int lvl)])
      = [⟨"gh", "isobaricInhPa", lvl, v⟩]) :
    processSlot pool ⟨"z", "isobaricInhPa", lvl, w⟩
      = .ok ⟨"z", "isobaricInhPa", lvl, v.map (fun q => q * 9.81)⟩ := by
  have hsel : select_grb_from_list pool
      [(.shortName, .str "gh"), (.typeOfLevel, .str "isobaricInhPa"),
        (.level, .int lvl)]
      = .ok ⟨"gh", "isobaricInhPa", lvl, v⟩ := by
    unfold select_grb_from_list
    rw [hfil]
  have h1 : lookupTable "isobaricInhPa" = some mappers_isobaricInhPa := rfl
  have h2 : lookupMapper mappers_isobaricInhPa "z"
      = some ⟨"gh", "z", fun x => x.map (fun q => q * 9.81), none, none⟩ := rfl
  have hms : mapped_matchers
      ⟨"gh", "z", fun x => x.map (fun q => q * 9.81), none, none⟩
      ⟨"z", "isobaricInhPa", lvl, w⟩
      = [(.shortName, .str "gh"), (.typeOfLevel, .str "isobaricInhPa"),
          (.level, .int lvl)] := rfl
  simp only [processSlot, h1, h2, hms, hsel]

/-- Witness for C6 at concrete inputs: a 500 hPa `gh` record with value 10
populates the `z` slot with 98.1. -/
theorem C6_witness :
    processSlot [⟨"gh", "isobaricInhPa", 500, [10]⟩] ⟨"z", "isobaricInhPa", 500, [0]⟩
      = .ok ⟨"z", "isobaricInhPa", 500, [981/10]⟩ := by
  have h := C6_isobaric_z_mapping [⟨"gh", "isobaricInhPa", 500, [10]⟩] 500 [10] [0]
    (by decide)
  rw [h]
  norm_num

/-- Claim C7: a surface template slot named `z` is populated from the source
record named `orog` at type of level `surface` (values multiplied by 9.81);
an isobaric record can never match this slot's matcher set, whatever the
source pool contains. -/
theorem C7_surface_z_from_orog (pool : List Record) (lvl : Int) (v w : List ℚ)
    (hfil : pool.filter (fun x => grb_matches x
        [(.shortName, .str "orog"), (.typeOfLevel, .str "surface"),
          (.level, .int lvl)])
      = [⟨"orog", "surface", lvl, v⟩]) :
    processSlot pool ⟨"z", "surface", lvl, w⟩
      = .ok ⟨"z", "surface", lvl, v.map (fun q => q * 9.81)⟩
  ∧ ∀ r : Record, r.typeOfLevel = "isobaricInhPa" →
      grb_matches r [(.shortName, .str "orog"), (.typeOfLevel, .str "surface"),
        (.level, .int lvl)] = false := by
  constructor
  · have hsel : select_grb_from_list pool
        [(.shortName, .str "orog"), (.typeOfLevel, .str "surface"),
          (.level, .int lvl)]
        = .ok ⟨"orog", "surface", lvl, v⟩ := by
      unfold select_grb_from_list
      rw [hfil]
    have h1 : lookupTable "surface" = some mappers_surface := rfl
    have h2 : lookupMapper mappers_surface "z"
        = some ⟨"orog", "z", fun x => x.map (fun q => q * 9.81), none, none⟩ := rfl
    have hms : mapped_matchers
        ⟨"orog", "z", fun x => x.map (fun q => q * 9.81), none, none⟩
        ⟨"z", "surface", lvl, w⟩
        = [(.shortName, .str "orog"), (.typeOfLevel, .str "surface"),
            (.level, .int lvl)] := rfl
    simp only [processSlot, h1, h2, hms, hsel]
  · intro r hr
    simp [grb_matches, Record.getAttr, hr]

/-- Witness for C7 at concrete inputs: with `z` records present at both the
isobaric and the surface type of level, the surface `z` slot is populated
from the `orog` record. -/
theorem C7_witness :
    processSlot
        [⟨"z", "isobaricInhPa", 500, [1]⟩, ⟨"z", "surface", 0, [2]⟩,
          ⟨"orog", "surface", 0, [3]⟩]
        ⟨"z", "surface", 0, [0]⟩
      = .ok ⟨"z", "surface", 0, [2943/100]⟩ := by
  have h := C7_surface_z_from_orog
    [⟨"z", "isobaricInhPa", 500, [1]⟩, ⟨"z", "surface", 0, [2]⟩,
      ⟨"orog", "surface", 0, [3]⟩] 0 [3] [0] (by decide)
  rw [h.1]
  norm_num

/-- Claim C8: a surface `tp` slot is populated from the selected `prate`
record by the exact formula dividing by the density of water and scaling by
seconds per hour: the table transform agrees pointwise with x/1000*3600. -/
theorem C8_precip_formula (pool : List Record) (lvl : Int) (v w : List ℚ)
    (hfil : pool.filter (fun x => grb_matches x
        [(.shortName, .str "prate"), (.typeOfLevel, .str "surface"),
          (.level, .int lvl)])
      = [⟨"prate", "surface", lvl, v⟩]) :
    processSlot pool ⟨"tp", "surface", lvl, w⟩
      = .ok ⟨"tp", "surface", lvl, v.map (fun q => (q / 1000) * 3600)⟩
  ∧ RHO_WATER = 1000 := by
  refine ⟨?_, rfl⟩
  have hsel : select_grb_from_list pool
      [(.shortName, .str "prate"), (.typeOfLevel, .str "surface"),
        (.level, .int lvl)]
      = .ok ⟨"prate", "surface", lvl, v⟩ := by
    unfold select_grb_from_list
    rw [hfil]
  have h1 : lookupTable "surface" = some mappers_surface := rfl
  have h2 : lookupMapper mappers_surface "tp"
      = some ⟨"prate", "tp", fun x => x.map (fun q => (q / RHO_WATER) * 3600 * 1),
          none, none⟩ := rfl
  have hms : mapped_matchers
      ⟨"prate", "tp", fun x => x.map (fun q => (q / RHO_WATER) * 3600 * 1),
        none, none⟩
      ⟨"tp", "surface", lvl, w⟩
      = [(.shortName, .str "prate"), (.typeOfLevel, .str "surface"),
          (.level, .int lvl)] := rfl
  simp only [processSlot, h1, h2, hms, hsel]
  simp [RHO_WATER]

/-- Witness for C8 at concrete inputs: a precipitation rate of 2 becomes a
one-hour accumulation of 7.2. -/
theorem C8_witness :
    processSlot [⟨"prate", "surface", 0, [2]⟩] ⟨"tp", "surface", 0, [0]⟩
      = .ok ⟨"tp", "surface", 0, [36/5]⟩ := by
  have h := C8_precip_formula [⟨"prate", "surface", 0, [2]⟩] 0 [2] [0] (by decide)
  rw [h.1]
  norm_num

/-- Claim C10: the loop populates slots by mutating the loaded template
records in place and, on success, returns exactly the final mutated state;
when earlier slots succeed and a slot fails, the operation surfaces the error
— returning no sequence — while the final template state keeps the successful
mutations of every earlier slot and leaves the failing slot and everything
after it untouched: the operation is not atomic over the template store. -/
theorem C10_mutation_not_atomic :
    (∀ (template source : List Record) (extra : Matchers),
        process_gdas_grib template source extra
          = processSlots (indexed_pool template source extra)
              (retained_template template extra))
  ∧ (∀ (pool slots out : List Record),
        processSlots pool slots = .ok out → storeAfter pool slots = out)
  ∧ (∀ (pool pre post : List Record) (g : Record) (e : ProcError),
        (∀ s ∈ pre, ∃ s', processSlot pool s = .ok s') →
        processSlot pool g = .error e →
        processSlots pool (pre ++ g :: post) = .error e
        ∧ storeAfter pool (pre ++ g :: post) = storeAfter pool pre ++ g :: post
        ∧ (storeAfter pool pre).length = pre.length
        ∧ ∀ (i : Nat) (s : Record), pre[i]? = some s →
            ∃ s', (storeAfter pool pre)[i]? = some s'
              ∧ processSlot pool s = .ok s') := by
  refine ⟨fun _ _ _ => rfl, fun pool slots out h => storeAfter_eq_of_ok pool slots out h, ?_⟩
  intro pool pre post g e hpre he
  exact ⟨processSlots_error_append pool pre post g e hpre he,
    storeAfter_error_append pool pre post g e hpre he,
    (storeAfter_ok_pointwise pool pre hpre).1,
    (storeAfter_ok_pointwise pool pre hpre).2⟩

/-- Witness for C10 at concrete inputs: with a first slot that succeeds and a
second that fails, the loop returns the error while the final template state
keeps the first slot's mutation and the untouched remainder. -/
theorem C10_witness :
    processSlots [⟨"gh", "isobaricInhPa", 500, [2]⟩]
        ([⟨"z", "isobaricInhPa", 500, [1]⟩]
          ++ ⟨"q", "isobaricInhPa", 500, [5]⟩ :: [⟨"t", "isobaricInhPa", 500, [3]⟩])
      = .error (.selectError (.noMatch
          [(.shortName, .str "q"), (.typeOfLevel, .str "isobaricInhPa"),
            (.level, .int 500)]))
  ∧ storeAfter [⟨"gh", "isobaricInhPa", 500, [2]⟩]
      ([⟨"z", "isobaricInhPa", 500, [1]⟩]
        ++ ⟨"q", "isobaricInhPa", 500, [5]⟩ :: [⟨"t", "isobaricInhPa", 500, [3]⟩])
      = storeAfter [⟨"gh", "isobaricInhPa", 500, [2]⟩]
          [⟨"z", "isobaricInhPa", 500, [1]⟩]
        ++ ⟨"q", "isobaricInhPa", 500, [5]⟩ :: [⟨"t", "isobaricInhPa", 500, [3]⟩]
  ∧ (storeAfter [⟨"gh", "isobaricInhPa", 500, [2]⟩]
      [⟨"z", "isobaricInhPa", 500, [1]⟩]).length = 1 := by
  have h := C10_mutation_not_atomic.2.2 [⟨"gh", "isobaricInhPa", 500, [2]⟩]
    [⟨"z", "isobaricInhPa", 500, [1]⟩] [⟨"t", "isobaricInhPa", 500, [3]⟩]
    ⟨"q", "isobaricInhPa", 500, [5]⟩
    (.selectError (.noMatch
      [(.shortName, .str "q"), (.typeOfLevel, .str "isobaricInhPa"),
        (.level, .int 500)]))
    (fun s hs => by
      have hz : s = ⟨"z", "isobaricInhPa", 500, [1]⟩ := by simpa using hs
      subst hz
      exact ⟨_, rfl⟩)
    (by decide)
  exact ⟨h.1, h.2.1, h.2.2.1⟩
